import Mathlib

/-!
Shallow embedding of the authorization / request-gating middleware and the
risk-scoring engine of the Personal-AI-Legal-Advocate backend.

The middleware functions (`authenticateToken`, `checkResourceOwnership`,
`requireSubscription`, `userRateLimit`) come from the auth middleware module;
the risk-scoring definitions come from the `POST /risk-assessment` handler in
`src/routes/resources.js`.  JavaScript numbers are modelled as `Int` (for
millisecond timestamps) and `ℚ` (for risk weights and scores); JavaScript
objects appearing as key/value maps are modelled as association lists whose
key order is the object's insertion order (`Object.keys` order).
-/

/-- A JavaScript id value as it can appear on `req.user._id` or on a resource
field: a number, a plain string, or an ObjectId wrapping its hex string. -/
inductive JSId where
  | num (n : Int)
  | str (s : String)
  | oid (s : String)
deriving DecidableEq, Repr

/-- JavaScript `.toString()` on an id value.  A number renders in decimal, a
string renders as itself, an ObjectId renders as its hex string. -/
def JSId.toStr : JSId → String
  | .num n => toString n
  | .str s => s
  | .oid s => s

/-! ## Identity verification (`authenticateToken`) -/

/-- Outcome classification of a failing `jwt.verify` call, as the middleware
distinguishes it by `error.name`: `TokenExpiredError`, `JsonWebTokenError`,
or anything else. -/
inductive VerifyError where
  | expired
  | malformed
  | other
deriving DecidableEq, Repr

/-- The decoded JWT payload; the middleware only reads `decoded.userId`. -/
structure JwtPayload where
  userId : Int
deriving DecidableEq, Repr

/-- The user record returned by `User.findById(..).select('-password')`;
the middleware only reads `isActive`. -/
structure DbUser where
  id : Int
  isActive : Bool
deriving DecidableEq, Repr

/-- Result of the authentication middleware: either a JSON error response
(status, `code` field) or `next()` with `req.user` set. -/
inductive AuthResult where
  | response (status : Nat) (code : String)
  | proceed (user : DbUser)
deriving DecidableEq, Repr

/-- JavaScript `String.prototype.split(' ')` on the character list of the
header: cut at every space, keeping empty segments (so `"Bearer "` splits
into `["Bearer", ""]`), as `split` does for a single-character separator. -/
def splitSpaceAux : List Char → List Char → List String
  | [], cur => [String.mk cur.reverse]
  | c :: rest, cur =>
    if c = ' ' then String.mk cur.reverse :: splitSpaceAux rest []
    else splitSpaceAux rest (c :: cur)

/-- `str.split(' ')`. -/
def splitSpace (s : String) : List String := splitSpaceAux s.data []

/-- `authHeader && authHeader.split(' ')[1]`: the token part of a
`Bearer TOKEN` header, `none` when the header is absent or has no second
space-separated part. -/
def bearerToken (authHeader : Option String) : Option String :=
  authHeader.bind fun h => (splitSpace h).get? 1

/-- The `authenticateToken` middleware.  `verify` models `jwt.verify` with the
process secret (a library collaborator, so it is a parameter), `findById`
models the user-store lookup.  An absent token — and also an empty-string
token, which is falsy in JavaScript — yields `TOKEN_REQUIRED`. -/
def authenticateToken (verify : String → Except VerifyError JwtPayload)
    (findById : Int → Option DbUser) (authHeader : Option String) : AuthResult :=
  match bearerToken authHeader with
  | none => .response 401 "TOKEN_REQUIRED"
  | some token =>
    if token = "" then .response 401 "TOKEN_REQUIRED"
    else
      match verify token with
      | .error .expired => .response 401 "TOKEN_EXPIRED"
      | .error .malformed => .response 401 "INVALID_TOKEN"
      | .error .other => .response 500 "TOKEN_VERIFICATION_FAILED"
      | .ok payload =>
        match findById payload.userId with
        | none => .response 401 "INVALID_TOKEN"
        | some user =>
          if user.isActive then .proceed user
          else .response 401 "INVALID_TOKEN"

/-! ## Ownership gate (`checkResourceOwnership`) -/

/-- A JavaScript resource object, seen as a map from field names to id
values; a field the object lacks is `none` (JavaScript `undefined`). -/
abbrev Resource := List (String × JSId)

/-- Result of the ownership gate: a JSON error response, an uncaught
exception escaping the middleware, or `next()`. -/
inductive GateResult where
  | response (status : Nat) (code : String)
  | thrown
  | proceed
deriving DecidableEq, Repr

/-- The middleware produced by `checkResourceOwnership(resourceField)`.
`reqResource <|> reqBody` models `req.resource || req.body` (objects are
always truthy; `undefined` is falsy).  When the resolved resource lacks the
configured field, `resource[resourceField]` is `undefined` and the call
`resourceUserId.toString()` raises a `TypeError`, modelled as `.thrown`. -/
def checkResourceOwnership (resourceField : String)
    (reqResource reqBody : Option Resource) (currentUserId : JSId) : GateResult :=
  match reqResource <|> reqBody with
  | none => .response 400 "RESOURCE_NOT_FOUND"
  | some resource =>
    match resource.lookup resourceField with
    | none => .thrown
    | some resourceUserId =>
      if resourceUserId.toStr ≠ currentUserId.toStr then
        .response 403 "ACCESS_DENIED"
      else .proceed

/-! ## Subscription gate (`requireSubscription`) -/

/-- The fixed table `subscriptionLevels = { free: 1, premium: 2,
enterprise: 3 }`; an unknown plan name is not in the table. -/
def subscriptionLevels (plan : String) : Option Nat :=
  if plan = "free" then some 1
  else if plan = "premium" then some 2
  else if plan = "enterprise" then some 3
  else none

/-- `subscriptionLevels[plan] || 1`: table lookup defaulting to 1.  (All
table values are nonzero, hence truthy, so `||` only fires on a missing
key.) -/
def planOrdinal (plan : String) : Nat :=
  (subscriptionLevels plan).getD 1

/-- Result of the subscription gate; the error response carries the
`requiredLevel` and `currentLevel` payload fields. -/
inductive SubResult where
  | response (status : Nat) (code : String) (requiredLevel currentLevel : String)
  | proceed
deriving DecidableEq, Repr

/-- The middleware produced by `requireSubscription(requiredLevel)`, applied
to a principal whose subscription plan is `userPlan`. -/
def requireSubscription (requiredLevel userPlan : String) : SubResult :=
  if planOrdinal userPlan < planOrdinal requiredLevel then
    .response 403 "SUBSCRIPTION_REQUIRED" requiredLevel userPlan
  else .proceed

/-! ## Per-user rate limiting (`userRateLimit`) -/

/-- `userHistory.filter(timestamp => timestamp > windowStart)` with
`windowStart = now - windowMs`: the retained (recent) timestamps. -/
def pruneWindow (windowMs now : Int) (history : List Int) : List Int :=
  history.filter fun t => now - windowMs < t

/-- `Math.ceil(x / d)` for an integer numerator `x` and positive integer
denominator `d`, computed with integer arithmetic: the ceiling is the
negated floor division of the negation (`Int` division is Euclidean, which
floors for a positive divisor). -/
def ceilDiv (x d : Int) : Int := -((-x) / d)

/-- The gate's verdict on one request: a 429 rejection carrying the
`retryAfter` payload value (in seconds), or admission. -/
inductive RateDecision where
  | rejected (retryAfter : Int)
  | admitted
deriving DecidableEq, Repr

/-- One rate-limit check: the decision together with the history stored in
the `userRequests` map for this user after the check. -/
structure RateCheckResult where
  decision : RateDecision
  store : List Int
deriving DecidableEq, Repr

/-- One invocation of the middleware produced by
`userRateLimit(maxRequests, windowMs)` for a user whose stored history is
`history`, at time `now`.  On rejection the middleware returns before the
`userRequests.set` call, so the stored history is unchanged; on admission it
stores the pruned history with `now` appended.  `recentRequests[0]` is
modelled by `headD 0`; in the rejection branch with `maxRequests ≥ 1` the
pruned list is nonempty, so the default is never consulted there. -/
def userRateLimit (maxRequests : Nat) (windowMs : Int) (history : List Int)
    (now : Int) : RateCheckResult :=
  let recentRequests := pruneWindow windowMs now history
  if maxRequests ≤ recentRequests.length then
    { decision := .rejected (ceilDiv (recentRequests.headD 0 + windowMs - now) 1000)
      store := history }
  else
    { decision := .admitted, store := recentRequests ++ [now] }

/-- A sequence of checks for one user at the given times, threading the
stored history; returns the decisions in order and the final stored
history. -/
def runRateRequests (maxRequests : Nat) (windowMs : Int) :
    List Int → List Int → List RateDecision × List Int
  | store, [] => ([], store)
  | store, now :: rest =>
    let r := userRateLimit maxRequests windowMs store now
    let (ds, final) := runRateRequests maxRequests windowMs r.store rest
    (r.decision :: ds, final)

/-- The pruning step as the specification words it: discard only the
timestamps strictly older than `now - windowDuration` (keep `t ≥
now - windowMs`).  Used to compare the specified boundary behaviour with the
implemented one, which keeps only `t > now - windowMs`. -/
def pruneWindowClaim (windowMs now : Int) (history : List Int) : List Int :=
  history.filter fun t => now - windowMs ≤ t

/-! ## Risk-scoring engine (`POST /risk-assessment`) -/

/-- The static table `riskFactors` from `src/routes/resources.js`: for each
recognized (factor key, severity label) pair, its numeric weight and
human-readable description.  Unlisted pairs are `none`. -/
def riskFactorEntry (factorKey label : String) : Option (ℚ × String) :=
  if factorKey = "case_complexity" then
    if label = "low" then some (2/10, "Straightforward case with clear precedents")
    else if label = "medium" then some (5/10, "Moderate complexity with some challenging aspects")
    else if label = "high" then some (8/10, "Complex case with multiple legal issues")
    else none
  else if factorKey = "evidence_strength" then
    if label = "strong" then some (1/10, "Strong evidence supporting your position")
    else if label = "moderate" then some (4/10, "Adequate evidence with some gaps")
    else if label = "weak" then some (7/10, "Limited or weak evidence")
    else none
  else if factorKey = "opponent_resources" then
    if label = "limited" then some (2/10, "Opponent has limited legal resources")
    else if label = "moderate" then some (4/10, "Opponent has adequate legal representation")
    else if label = "extensive" then some (7/10, "Opponent has extensive legal resources")
    else none
  else if factorKey = "time_constraints" then
    if label = "adequate" then some (1/10, "Sufficient time to prepare case")
    else if label = "tight" then some (4/10, "Limited time for case preparation")
    else if label = "urgent" then some (8/10, "Very tight deadlines and time pressure")
    else none
  else if factorKey = "financial_impact" then
    if label = "low" then some (2/10, "Low financial stakes")
    else if label = "medium" then some (5/10, "Moderate financial implications")
    else if label = "high" then some (8/10, "High financial stakes involved")
    else none
  else none

/-- The request's `factors` object, as its (key, label) entries in
`Object.keys` order. -/
abbrev RiskFactorSet := List (String × String)

/-- One iteration of the `Object.keys(factors).forEach` loop: when the
(key, label) pair is in the table, add its weight to `totalRiskScore`,
increment `factorCount`, and record the breakdown entry
(key, value, score, description); otherwise leave the state unchanged. -/
def riskStep (acc : ℚ × Nat × List (String × String × ℚ × String))
    (kv : String × String) : ℚ × Nat × List (String × String × ℚ × String) :=
  (riskFactorEntry kv.1 kv.2).elim acc fun sd =>
    (acc.1 + sd.1, acc.2.1 + 1, acc.2.2 ++ [(kv.1, kv.2, sd.1, sd.2)])

/-- The loop's final state: (`totalRiskScore`, `factorCount`,
`assessmentDetails`). -/
def riskLoop (factors : RiskFactorSet) : ℚ × Nat × List (String × String × ℚ × String) :=
  factors.foldl riskStep (0, 0, [])

/-- `factorCount` after the loop. -/
def factorCount (factors : RiskFactorSet) : Nat := (riskLoop factors).2.1

/-- `averageRiskScore = factorCount > 0 ? totalRiskScore / factorCount : 0`. -/
def averageRiskScore (factors : RiskFactorSet) : ℚ :=
  if 0 < factorCount factors then (riskLoop factors).1 / (factorCount factors : ℚ)
  else 0

/-- JavaScript `Math.round`: round half toward positive infinity. -/
def jsRound (x : ℚ) : ℤ := ⌊x + 1/2⌋

/-- `Math.round(averageRiskScore * 100) / 100`: the assessment's `riskScore`
field, the average rounded to two decimal places. -/
def riskScore (factors : RiskFactorSet) : ℚ :=
  (jsRound (averageRiskScore factors * 100) : ℚ) / 100

/-- The assessment's `riskLevel`: initialised to `low`, overwritten to
`high` when the (unrounded) average is ≥ 0.7, else to `medium` when it is
≥ 0.4. -/
def riskLevel (factors : RiskFactorSet) : String :=
  if 7/10 ≤ averageRiskScore factors then "high"
  else if 4/10 ≤ averageRiskScore factors then "medium"
  else "low"

/-- The assessment's `riskColor`, set alongside `riskLevel`. -/
def riskColor (factors : RiskFactorSet) : String :=
  if 7/10 ≤ averageRiskScore factors then "red"
  else if 4/10 ≤ averageRiskScore factors then "yellow"
  else "green"

/-- The `assessmentDetails` breakdown recorded by the loop. -/
def assessmentDetails (factors : RiskFactorSet) : List (String × String × ℚ × String) :=
  (riskLoop factors).2.2

/-- The `recommendations` array: four independent rule checks, each
appending its fixed strings.  The last three read the raw `factors` object
fields, modelled by association-list lookup. -/
def recommendations (factors : RiskFactorSet) : List String :=
  (if 6/10 ≤ averageRiskScore factors then
    ["Consider seeking experienced legal counsel",
     "Develop a comprehensive case strategy",
     "Allocate additional resources for case preparation"]
   else []) ++
  (if factors.lookup "evidence_strength" = some "weak" then
    ["Focus on gathering additional evidence",
     "Consider expert witnesses or testimony"]
   else []) ++
  (if factors.lookup "time_constraints" = some "urgent" then
    ["Prioritize critical deadlines",
     "Consider requesting extensions where possible"]
   else []) ++
  (if factors.lookup "opponent_resources" = some "extensive" then
    ["Prepare for well-funded opposition",
     "Focus on strong legal arguments and precedents"]
   else [])

/-- The `assessment` response object (the fields relevant to scoring; the
pass-through fields `caseId`, `caseInfo`, `additionalFactors`,
`description` are independent of scoring and omitted). -/
structure Assessment where
  id : String
  userId : JSId
  riskScore : ℚ
  riskLevel : String
  riskColor : String
  factors : List (String × String × ℚ × String)
  recommendations : List String
  createdAt : Int
deriving DecidableEq, Repr

/-- Building the `assessment` object at time `now` (milliseconds since
epoch): `id` is `new Date().getTime().toString()` and `createdAt` is
`new Date()`, both read from the clock at response time. -/
def mkAssessment (factors : RiskFactorSet) (uid : JSId) (now : Int) : Assessment :=
  ⟨toString now, uid, riskScore factors, riskLevel factors, riskColor factors,
   assessmentDetails factors, recommendations factors, now⟩

/-- The weights of exactly the table-recognized (key, label) entries of the
input, in input order. -/
def recognizedWeights (factors : RiskFactorSet) : List ℚ :=
  factors.filterMap fun kv => (riskFactorEntry kv.1 kv.2).map Prod.fst

/-- The worst-case example input from the specification. -/
def worstCaseFactors : RiskFactorSet :=
  [("case_complexity", "high"), ("evidence_strength", "weak"),
   ("opponent_resources", "extensive"), ("time_constraints", "urgent"),
   ("financial_impact", "high")]

/-! ## Helper lemmas -/

/-- `ceilDiv` with the divisor 1000 is the mathematical ceiling of the exact
rational quotient, i.e. JavaScript `Math.ceil(x / 1000)`. -/
theorem ceilDiv_eq_ceil_ratCast (x : ℤ) : ceilDiv x 1000 = ⌈(x : ℚ) / 1000⌉ := by
  unfold ceilDiv
  have h2 : ⌊((-x : ℤ) : ℚ) / ((1000 : ℕ) : ℚ)⌋ = (-x) / (1000 : ℤ) :=
    Rat.floor_intCast_div_natCast (-x) 1000
  have h3 : ((x : ℚ) / 1000) = -(((-x : ℤ) : ℚ) / ((1000 : ℕ) : ℚ)) := by
    push_cast
    ring
  rw [h3, Int.ceil_neg, h2]

/-- The accumulator of the `forEach` scoring loop: the running total is the
initial total plus the sum of the recognized weights, and the running count
is the initial count plus their number. -/
theorem foldl_riskStep_totals (l : RiskFactorSet) :
    ∀ acc : ℚ × Nat × List (String × String × ℚ × String),
      (List.foldl riskStep acc l).1 = acc.1 + (recognizedWeights l).sum ∧
      (List.foldl riskStep acc l).2.1 = acc.2.1 + (recognizedWeights l).length := by
  induction l with
  | nil => intro acc; simp [recognizedWeights]
  | cons kv rest ih =>
    intro acc
    cases h : riskFactorEntry kv.1 kv.2 with
    | none =>
      have hw : recognizedWeights (kv :: rest) = recognizedWeights rest := by
        simp [recognizedWeights, List.filterMap_cons, h]
      rw [List.foldl_cons, hw]
      have hstep : riskStep acc kv = acc := by simp [riskStep, h]
      rw [hstep]
      exact ih acc
    | some sd =>
      have hw : recognizedWeights (kv :: rest) = sd.1 :: recognizedWeights rest := by
        simp [recognizedWeights, List.filterMap_cons, h]
      rw [List.foldl_cons, hw]
      have hstep : riskStep acc kv =
          (acc.1 + sd.1, acc.2.1 + 1, acc.2.2 ++ [(kv.1, kv.2, sd.1, sd.2)]) := by
        simp [riskStep, h]
      rw [hstep]
      obtain ⟨h1, h2⟩ := ih (acc.1 + sd.1, acc.2.1 + 1, acc.2.2 ++ [(kv.1, kv.2, sd.1, sd.2)])
      refine ⟨?_, ?_⟩
      · rw [h1, List.sum_cons]; ring
      · rw [h2]; simp; omega

/-- `totalRiskScore` after the loop is the sum of the recognized weights. -/
theorem riskLoop_total (factors : RiskFactorSet) :
    (riskLoop factors).1 = (recognizedWeights factors).sum := by
  have := (foldl_riskStep_totals factors (0, 0, [])).1
  simpa [riskLoop] using this

/-- `factorCount` after the loop is the number of recognized entries. -/
theorem factorCount_eq_length (factors : RiskFactorSet) :
    factorCount factors = (recognizedWeights factors).length := by
  have := (foldl_riskStep_totals factors (0, 0, [])).2
  simpa [factorCount, riskLoop] using this

/-- With at least one recognized entry, the unrounded average is the
arithmetic mean of the recognized weights. -/
theorem averageRiskScore_eq_mean (factors : RiskFactorSet)
    (hne : recognizedWeights factors ≠ []) :
    averageRiskScore factors =
      (recognizedWeights factors).sum / ((recognizedWeights factors).length : ℚ) := by
  have hlen : 0 < (recognizedWeights factors).length := List.length_pos.mpr hne
  unfold averageRiskScore
  rw [factorCount_eq_length, riskLoop_total, if_pos hlen]

/-! ## Claim theorems -/

/-- C1 (counterexample): the claim says the gate discards only the stored
timestamps *older than* `now - windowDuration`; under that reading, with
`max = 1`, `window = 60` ms, stored history `[40]` and `now = 100`, the
timestamp `40 = now - window` is retained, the retained count `1 ≥ max`
holds, and the check must reject.  The implementation filters with a strict
`timestamp > windowStart`, so it discards the timestamp `40` and admits the
request. -/
theorem C1_boundary_counterexample :
    1 ≤ (pruneWindowClaim 60 100 [40]).length ∧
    (userRateLimit 1 60 [40] 100).decision = RateDecision.admitted := by
  decide

/-- C1 (amended): the gate first discards the stored timestamps that are not
strictly newer than `now - windowDuration` (i.e. `t ≤ now - windowMs`; the
boundary timestamp `t = now - windowMs` is also discarded).  If the retained
count reaches `maxRequests` the check fails, the error's `retryAfter` is
`⌈(oldestRetained + windowMs - now) / 1000⌉` seconds, and the stored history
is unchanged; for a chronologically stored history the head of the retained
list is its oldest element.  Otherwise the check admits and stores the
retained list with `now` appended.  With `max = 3`, `window = 60` s, four
requests within 10 s have the 4th rejected, and a 5th request after the
window has fully elapsed is admitted. -/
theorem C1_rate_limit_gate (maxRequests : Nat) (windowMs now : Int)
    (history : List Int) (hsorted : history.Pairwise (· ≤ ·)) :
    (pruneWindow windowMs now history = history.filter fun t => now - windowMs < t) ∧
    (maxRequests ≤ (pruneWindow windowMs now history).length →
      userRateLimit maxRequests windowMs history now =
        ⟨RateDecision.rejected
            ⌈((((pruneWindow windowMs now history).headD 0 + windowMs - now : ℤ) : ℚ) / 1000)⌉,
          history⟩) ∧
    (∀ t ∈ pruneWindow windowMs now history, (pruneWindow windowMs now history).headD 0 ≤ t) ∧
    ((pruneWindow windowMs now history).length < maxRequests →
      userRateLimit maxRequests windowMs history now =
        ⟨RateDecision.admitted, pruneWindow windowMs now history ++ [now]⟩) ∧
    (runRateRequests 3 60000 [] [0, 3000, 6000, 10000, 70000]).1 =
      [RateDecision.admitted, RateDecision.admitted, RateDecision.admitted,
        RateDecision.rejected 50, RateDecision.admitted] := by
  refine ⟨rfl, ?_, ?_, ?_, by decide⟩
  · intro hge
    unfold userRateLimit
    rw [if_pos hge, ceilDiv_eq_ceil_ratCast]
  · have hp : (pruneWindow windowMs now history).Pairwise (· ≤ ·) :=
      List.Pairwise.sublist (List.filter_sublist history) hsorted
    intro t ht
    cases hl : pruneWindow windowMs now history with
    | nil => rw [hl] at ht; simp at ht
    | cons a as =>
      rw [hl] at ht hp
      rw [List.pairwise_cons] at hp
      rcases List.mem_cons.mp ht with h | h
      · simp [h]
      · simpa using hp.1 t h
  · intro hlt
    unfold userRateLimit
    rw [if_neg (by omega)]

/-- C1 (witness): three prior requests at 0 s, 1 s and 2 s, max 3 in a 60 s
window; a 4th request at 3 s is rejected with `retryAfter` 57 s and leaves
the stored history unchanged. -/
theorem C1_rate_limit_gate_witness :
    userRateLimit 3 60000 [0, 1000, 2000] 3000 =
      ⟨RateDecision.rejected
          ⌈((((pruneWindow 60000 3000 [0, 1000, 2000]).headD 0 + 60000 - 3000 : ℤ) : ℚ) / 1000)⌉,
        [0, 1000, 2000]⟩ :=
  (C1_rate_limit_gate 3 60000 3000 [0, 1000, 2000] (by decide)).2.1 (by decide)

/-- C10: whenever a check is rejected with `RATE_LIMIT_EXCEEDED`, the stored
history for the user is exactly what it was before the check — neither the
pruned list nor the rejected request's timestamp is written back. -/
theorem C10_rejection_preserves_store (maxRequests : Nat) (windowMs now : Int)
    (history : List Int) (r : Int)
    (h : (userRateLimit maxRequests windowMs history now).decision = RateDecision.rejected r) :
    (userRateLimit maxRequests windowMs history now).store = history := by
  unfold userRateLimit at h ⊢
  by_cases hc : maxRequests ≤ (pruneWindow windowMs now history).length
  · simp [hc]
  · simp [hc] at h

/-- C10 (witness): with max 1 and a stored request at 5 ms, a request at
10 ms is rejected and the stored history stays `[5]`. -/
theorem C10_rejection_preserves_store_witness :
    (userRateLimit 1 60000 [5] 10).store = [5] :=
  C10_rejection_preserves_store 1 60000 10 [5] 60 (by decide)

/-- C4: the subscription gate proceeds iff the user plan's ordinal reaches
the required plan's ordinal, ordinals being given by the fixed table
`{free: 1, premium: 2, enterprise: 3}` with every unknown plan string at
ordinal 1; on failure the 403 error has code `SUBSCRIPTION_REQUIRED` and
carries the required and current plans. -/
theorem C4_subscription_gate (requiredLevel userPlan : String) :
    (requireSubscription requiredLevel userPlan = SubResult.proceed ↔
      planOrdinal requiredLevel ≤ planOrdinal userPlan) ∧
    (planOrdinal userPlan < planOrdinal requiredLevel →
      requireSubscription requiredLevel userPlan =
        SubResult.response 403 "SUBSCRIPTION_REQUIRED" requiredLevel userPlan) ∧
    planOrdinal "free" = 1 ∧ planOrdinal "premium" = 2 ∧ planOrdinal "enterprise" = 3 ∧
    (userPlan ≠ "free" → userPlan ≠ "premium" → userPlan ≠ "enterprise" →
      planOrdinal userPlan = 1) := by
  refine ⟨?_, ?_, rfl, rfl, rfl, ?_⟩
  · unfold requireSubscription
    by_cases hc : planOrdinal userPlan < planOrdinal requiredLevel
    · rw [if_pos hc]
      constructor
      · intro hcontra; cases hcontra
      · omega
    · rw [if_neg hc]
      simp
      omega
  · intro hlt
    unfold requireSubscription
    rw [if_pos hlt]
  · intro h1 h2 h3
    unfold planOrdinal subscriptionLevels
    rw [if_neg h1, if_neg h2, if_neg h3]
    rfl

/-- C4 (witness): an unknown plan string `"gold"` behaves as ordinal 1, so a
route requiring `"premium"` rejects it with `SUBSCRIPTION_REQUIRED`. -/
theorem C4_subscription_gate_witness :
    requireSubscription "premium" "gold" =
      SubResult.response 403 "SUBSCRIPTION_REQUIRED" "premium" "gold" :=
  (C4_subscription_gate "premium" "gold").2.1 (by decide)

/-- C5: with a resource object present (from `req.resource` or `req.body`)
whose ownership field holds an id, the gate proceeds iff the string-rendered
resource id equals the string-rendered principal id; a numeric id renders
exactly as its decimal string, so ids of equivalent value in different
representations compare equal; unequal renderings fail with `ACCESS_DENIED`
(403), and with no resource object at all the gate fails with
`RESOURCE_NOT_FOUND` (400). -/
theorem C5_ownership_gate (resourceField : String)
    (reqResource reqBody : Option Resource) (resource : Resource) (rid uid : JSId)
    (hres : (reqResource <|> reqBody) = some resource)
    (hfield : resource.lookup resourceField = some rid) :
    (checkResourceOwnership resourceField reqResource reqBody uid = GateResult.proceed ↔
      rid.toStr = uid.toStr) ∧
    (rid.toStr ≠ uid.toStr →
      checkResourceOwnership resourceField reqResource reqBody uid =
        GateResult.response 403 "ACCESS_DENIED") ∧
    (∀ n : Int, (JSId.num n).toStr = (JSId.str (toString n)).toStr) ∧
    (∀ rR rB : Option Resource, (rR <|> rB) = none →
      checkResourceOwnership resourceField rR rB uid =
        GateResult.response 400 "RESOURCE_NOT_FOUND") := by
  refine ⟨?_, ?_, fun n => rfl, ?_⟩
  · unfold checkResourceOwnership
    simp only [hres, hfield]
    by_cases he : rid.toStr = uid.toStr
    · simp [he]
    · simp [he]
  · intro hne
    unfold checkResourceOwnership
    simp only [hres, hfield, if_pos hne]
  · intro rR rB hnone
    unfold checkResourceOwnership
    simp only [hnone]

/-- C5 (witness): a resource in `req.body` carrying the numeric id `42` is
owned by the principal whose id is the string `"42"`; the gate proceeds. -/
theorem C5_ownership_gate_witness :
    checkResourceOwnership "userId" none (some [("userId", JSId.num 42)])
      (JSId.str "42") = GateResult.proceed :=
  (C5_ownership_gate "userId" none (some [("userId", JSId.num 42)])
      [("userId", JSId.num 42)] (JSId.num 42) (JSId.str "42") rfl rfl).1.mpr (by decide)

/-- C9: when the resolved resource object is present but lacks the
configured ownership field, the comparison step calls `.toString()` on
`undefined` and the middleware throws instead of proceeding or returning a
gate error response. -/
theorem C9_ownership_gate_partiality (resourceField : String)
    (reqResource reqBody : Option Resource) (resource : Resource) (uid : JSId)
    (hres : (reqResource <|> reqBody) = some resource)
    (hfield : resource.lookup resourceField = none) :
    checkResourceOwnership resourceField reqResource reqBody uid = GateResult.thrown ∧
    checkResourceOwnership resourceField reqResource reqBody uid ≠ GateResult.proceed ∧
    (∀ s c, checkResourceOwnership resourceField reqResource reqBody uid ≠
      GateResult.response s c) := by
  have hmain : checkResourceOwnership resourceField reqResource reqBody uid =
      GateResult.thrown := by
    unfold checkResourceOwnership
    simp only [hres, hfield]
  refine ⟨hmain, ?_, ?_⟩
  · rw [hmain]; intro hcontra; cases hcontra
  · intro s c; rw [hmain]; intro hcontra; cases hcontra

/-- C9 (witness): a body resource with only a `title` field, checked for the
default `userId` ownership field, makes the gate throw. -/
theorem C9_ownership_gate_partiality_witness :
    checkResourceOwnership "userId" none (some [("title", JSId.str "My case")])
      (JSId.str "u1") = GateResult.thrown :=
  (C9_ownership_gate_partiality "userId" none (some [("title", JSId.str "My case")])
      [("title", JSId.str "My case")] (JSId.str "u1") rfl rfl).1

/-- C3: a request with no bearer token fails with `TOKEN_REQUIRED`; a
credential the verifier reports as expired fails with `TOKEN_EXPIRED`
(the expiry branch is taken whenever `verify` classifies the failure as
expiry, whatever else holds of the credential); a credential that verifies
but whose embedded user id resolves to no user, or to a user whose active
flag is false, fails with `INVALID_TOKEN`. -/
theorem C3_authenticate_token (verify : String → Except VerifyError JwtPayload)
    (findById : Int → Option DbUser) (authHeader : Option String)
    (token : String) (payload : JwtPayload) :
    (bearerToken authHeader = none →
      authenticateToken verify findById authHeader = AuthResult.response 401 "TOKEN_REQUIRED") ∧
    (bearerToken authHeader = some token → token ≠ "" →
      verify token = Except.error VerifyError.expired →
      authenticateToken verify findById authHeader = AuthResult.response 401 "TOKEN_EXPIRED") ∧
    (bearerToken authHeader = some token → token ≠ "" →
      verify token = Except.ok payload → findById payload.userId = none →
      authenticateToken verify findById authHeader = AuthResult.response 401 "INVALID_TOKEN") ∧
    (∀ user : DbUser, bearerToken authHeader = some token → token ≠ "" →
      verify token = Except.ok payload → findById payload.userId = some user →
      user.isActive = false →
      authenticateToken verify findById authHeader = AuthResult.response 401 "INVALID_TOKEN") := by
  refine ⟨?_, ?_, ?_, ?_⟩
  · intro hnone
    unfold authenticateToken
    simp only [hnone]
  · intro htok hne hexp
    unfold authenticateToken
    simp only [htok, if_neg hne, hexp]
  · intro htok hne hok hfind
    unfold authenticateToken
    simp only [htok, if_neg hne, hok, hfind]
  · intro user htok hne hok hfind hinactive
    unfold authenticateToken
    simp only [htok, if_neg hne, hok, hfind, hinactive]
    rfl

/-- C3 (witness): a syntactically present, expired credential for an
existing active user is still rejected with `TOKEN_EXPIRED`. -/
theorem C3_authenticate_token_witness :
    authenticateToken (fun _ => Except.error VerifyError.expired)
      (fun _ => some ⟨7, true⟩) (some "Bearer abc") =
      AuthResult.response 401 "TOKEN_EXPIRED" :=
  (C3_authenticate_token (fun _ => Except.error VerifyError.expired)
      (fun _ => some ⟨7, true⟩) (some "Bearer abc") "abc" ⟨7⟩).2.1
    (by decide) (by decide) rfl

/-- C2: whenever at least one entry of the input is recognized by the static
table, the returned `riskScore` is the arithmetic mean `m` of the recognized
entries' weights rounded to two decimal places (`Math.round(m*100)/100`,
rounding half up), and the `riskLevel` is derived from the unrounded mean:
`high` when `m ≥ 0.7`, `medium` when `0.4 ≤ m < 0.7`, `low` when
`m < 0.4`. -/
theorem C2_risk_score_mean (factors : RiskFactorSet) (m : ℚ)
    (hne : recognizedWeights factors ≠ [])
    (hm : m = (recognizedWeights factors).sum / ((recognizedWeights factors).length : ℚ)) :
    riskScore factors = ((jsRound (m * 100) : ℤ) : ℚ) / 100 ∧
    (7/10 ≤ m → riskLevel factors = "high") ∧
    (4/10 ≤ m ∧ m < 7/10 → riskLevel factors = "medium") ∧
    (m < 4/10 → riskLevel factors = "low") := by
  have havg : averageRiskScore factors = m := by
    rw [hm]; exact averageRiskScore_eq_mean factors hne
  refine ⟨?_, ?_, ?_, ?_⟩
  · unfold riskScore
    rw [havg]
  · intro hhigh
    unfold riskLevel
    rw [havg, if_pos hhigh]
  · intro hmed
    unfold riskLevel
    rw [havg, if_neg (by linarith [hmed.2]), if_pos hmed.1]
  · intro hlow
    unfold riskLevel
    rw [havg, if_neg (by linarith), if_neg (by linarith)]

/-- C2 (witness): the single recognized entry `case_complexity: low` has
weight 0.2, so the mean is 0.2, the score is `Math.round(20)/100 = 0.2`,
and the level is `low`. -/
theorem C2_risk_score_mean_witness :
    riskScore [("case_complexity", "low")] = ((jsRound ((1/5 : ℚ) * 100) : ℤ) : ℚ) / 100 ∧
    riskLevel [("case_complexity", "low")] = "low" :=
  ⟨(C2_risk_score_mean [("case_complexity", "low")] (1/5)
      (by simp [recognizedWeights, riskFactorEntry])
      (by simp [recognizedWeights, riskFactorEntry]; norm_num)).1,
   (C2_risk_score_mean [("case_complexity", "low")] (1/5)
      (by simp [recognizedWeights, riskFactorEntry])
      (by simp [recognizedWeights, riskFactorEntry]; norm_num)).2.2.2 (by norm_num)⟩

/-- C6: on the worst-case input the five recognized weights are 0.8, 0.7,
0.7, 0.8, 0.8, the unrounded mean is their average 0.76, the returned
`riskScore` is 0.76 and the `riskLevel` is `high`; all four recommendation
rules fire, so the recommendation list is exactly the escalation,
evidence-gathering, deadline and preparation groups concatenated. -/
theorem C6_worst_case_assessment :
    averageRiskScore worstCaseFactors = (8/10 + 7/10 + 7/10 + 8/10 + 8/10) / 5 ∧
    riskScore worstCaseFactors = 76/100 ∧
    riskLevel worstCaseFactors = "high" ∧
    recommendations worstCaseFactors =
      ["Consider seeking experienced legal counsel",
       "Develop a comprehensive case strategy",
       "Allocate additional resources for case preparation",
       "Focus on gathering additional evidence",
       "Consider expert witnesses or testimony",
       "Prioritize critical deadlines",
       "Consider requesting extensions where possible",
       "Prepare for well-funded opposition",
       "Focus on strong legal arguments and precedents"] := by
  refine ⟨?_, ?_, ?_, ?_⟩
  · simp [averageRiskScore, factorCount, riskLoop, riskStep, riskFactorEntry,
      worstCaseFactors, List.foldl]
    try norm_num
  · simp [riskScore, averageRiskScore, factorCount, riskLoop, riskStep,
      riskFactorEntry, worstCaseFactors, jsRound, List.foldl]
    try norm_num
  · simp [riskLevel, averageRiskScore, factorCount, riskLoop, riskStep,
      riskFactorEntry, worstCaseFactors, List.foldl]
    try norm_num
  · simp [recommendations, averageRiskScore, factorCount, riskLoop, riskStep,
      riskFactorEntry, worstCaseFactors, List.foldl, List.lookup]
    try norm_num

/-- C7: an input entry whose key is not a table key, or whose label is not
in its key's row, contributes nothing: the score, level and per-factor
breakdown equal those of the same input with that entry removed, and no
error is produced for it. -/
theorem C7_unrecognized_entry_skipped (l1 l2 : RiskFactorSet) (key label : String)
    (hunrec : riskFactorEntry key label = none) :
    riskScore (l1 ++ (key, label) :: l2) = riskScore (l1 ++ l2) ∧
    riskLevel (l1 ++ (key, label) :: l2) = riskLevel (l1 ++ l2) ∧
    assessmentDetails (l1 ++ (key, label) :: l2) = assessmentDetails (l1 ++ l2) := by
  have hloop : riskLoop (l1 ++ (key, label) :: l2) = riskLoop (l1 ++ l2) := by
    unfold riskLoop
    rw [List.foldl_append, List.foldl_append, List.foldl_cons]
    have hstep : ∀ acc : ℚ × Nat × List (String × String × ℚ × String),
        riskStep acc (key, label) = acc := by
      intro acc
      simp [riskStep, hunrec]
    rw [hstep]
  have havg : averageRiskScore (l1 ++ (key, label) :: l2) = averageRiskScore (l1 ++ l2) := by
    unfold averageRiskScore factorCount
    rw [hloop]
  refine ⟨?_, ?_, ?_⟩
  · unfold riskScore
    rw [havg]
  · unfold riskLevel
    rw [havg]
  · unfold assessmentDetails
    rw [hloop]

/-- C7 (witness): the entry `("court_mood", "grim")` is recognized by no
table row; inserting it after `case_complexity: high` changes neither the
score nor the level nor the breakdown. -/
theorem C7_unrecognized_entry_skipped_witness :
    riskScore ([("case_complexity", "high")] ++ ("court_mood", "grim") :: []) =
      riskScore ([("case_complexity", "high")] ++ []) ∧
    riskLevel ([("case_complexity", "high")] ++ ("court_mood", "grim") :: []) =
      riskLevel ([("case_complexity", "high")] ++ []) :=
  ⟨(C7_unrecognized_entry_skipped [("case_complexity", "high")] [] "court_mood" "grim" rfl).1,
   (C7_unrecognized_entry_skipped [("case_complexity", "high")] [] "court_mood" "grim" rfl).2.1⟩

/-- C8 (counterexample): the assessment response is not a function of the
RiskFactorSet alone — its `id` is `new Date().getTime().toString()` and its
`createdAt` is `new Date()`.  Two runs on the identical worst-case input at
clock readings 1000 ms and 2000 ms produce different assessment objects. -/
theorem C8_two_runs_differ :
    mkAssessment worstCaseFactors (JSId.str "u1") 1000 ≠
      mkAssessment worstCaseFactors (JSId.str "u1") 2000 :=
  fun hcontra => absurd (congrArg Assessment.createdAt hcontra) (by decide)

/-- C8 (amended): the scoring itself is pure — for any two runs on the same
RiskFactorSet, whatever the clock reads, the `riskScore`, `riskLevel`,
`riskColor`, per-factor breakdown and recommendation list are identical; only
the clock-derived bookkeeping fields `id` and `createdAt` can differ. -/
theorem C8_scoring_deterministic (factors : RiskFactorSet) (uid : JSId) (t1 t2 : Int) :
    (mkAssessment factors uid t1).riskScore = (mkAssessment factors uid t2).riskScore ∧
    (mkAssessment factors uid t1).riskLevel = (mkAssessment factors uid t2).riskLevel ∧
    (mkAssessment factors uid t1).riskColor = (mkAssessment factors uid t2).riskColor ∧
    (mkAssessment factors uid t1).factors = (mkAssessment factors uid t2).factors ∧
    (mkAssessment factors uid t1).recommendations =
      (mkAssessment factors uid t2).recommendations :=
  ⟨rfl, rfl, rfl, rfl, rfl⟩
